import Mathlib

/-!
Verification of the sllurp FastAPI example service
(examples/fastapi/app.py): a shallow embedding of its global state,
HTTP handlers, WebSocket endpoint, reader callbacks and the
background queue-polling loop, with theorems about their behaviour.
-/

namespace FastapiApp

/-- JSON-like values, modelling the Python dicts and lists the service
serializes into its HTTP and WebSocket responses. -/
inductive Json where
  | str : String → Json
  | num : Nat → Json
  | bool : Bool → Json
  | arr : List Json → Json
  | obj : List (String × Json) → Json

/-- The pydantic RFIDTag model: epc string, RF channel index,
last-seen timestamp, seen count. -/
structure RFIDTag where
  epc : String
  channel : Nat
  last_seen : Nat
  seen_count : Nat
deriving DecidableEq, Repr

/-- RFIDTag.model_dump: the pydantic serialization of one tag record. -/
def RFIDTag.model_dump (t : RFIDTag) : Json :=
  Json.obj [("epc", Json.str t.epc), ("channel", Json.num t.channel),
            ("last_seen", Json.num t.last_seen), ("seen_count", Json.num t.seen_count)]

/-- The slice of the LLRPReaderClient visible to this service: whether
is_alive() holds, and the llrp.state code. -/
structure Reader where
  alive : Bool
  llrpState : Nat
deriving DecidableEq, Repr

/-- A WebSocket subscriber connection. The fails flag records whether
send_json on this connection raises. -/
structure Conn where
  id : Nat
  fails : Bool
deriving DecidableEq, Repr

/-- The service globals: READER, TAG_DATA, TAG_QUEUE (a FIFO of
serialized tag batches) and ACTIVE_CONNECTIONS. -/
structure AppState where
  reader : Option Reader
  tagData : List RFIDTag
  tagQueue : List (List Json)
  activeConnections : List Conn

/-- Calls the service makes on the reader client object. -/
inductive ReaderCall where
  | startInventory
  | stopPolitely
deriving DecidableEq, Repr

/-- A reader-client call together with the service state at the moment
the call is issued, so that ordering of mutation and call is visible. -/
structure TracedCall where
  call : ReaderCall
  stateAtCall : AppState

/-- The guard READER and READER.is_alive() used throughout the file. -/
def readerAlive (st : AppState) : Bool :=
  match st.reader with
  | some r => r.alive
  | none => false

/-- clear_tag_data: reset the global TAG_DATA list to empty. -/
def clear_tag_data (st : AppState) : AppState :=
  { st with tagData := [] }

/-- start_reading: when the reader exists and is alive, clear the tag
data and then call startInventory on the reader client. -/
def start_reading (st : AppState) : AppState × List TracedCall :=
  if readerAlive st then
    let st1 := clear_tag_data st
    (st1, [⟨ReaderCall.startInventory, st1⟩])
  else (st, [])

/-- stop_reading: when the reader exists and is alive, call
stopPolitely on the reader client. -/
def stop_reading (st : AppState) : AppState × List TracedCall :=
  if readerAlive st then (st, [⟨ReaderCall.stopPolitely, st⟩])
  else (st, [])

/-- One tag report as delivered by the library to the tag-report
callback: EPC bytes, channel index, last-seen timestamp, seen count. -/
structure TagReport where
  EPC : List Nat
  ChannelIndex : Nat
  LastSeenTimestampUTC : Nat
  TagSeenCount : Nat
deriving DecidableEq, Repr

/-- bytes.decode of EPC bytes into the epc string. -/
def decodeAscii (bytes : List Nat) : String :=
  String.mk (bytes.map Char.ofNat)

/-- The translation of one library tag report into an RFIDTag record,
as performed inside tag_report_cb. -/
def translateTag (tag : TagReport) : RFIDTag :=
  { epc := decodeAscii tag.EPC, channel := tag.ChannelIndex,
    last_seen := tag.LastSeenTimestampUTC, seen_count := tag.TagSeenCount }

/-- tag_report_cb: replace TAG_DATA with the translation of the
incoming batch and enqueue the serialized batch on TAG_QUEUE. -/
def tag_report_cb (tag_reports : List TagReport) (st : AppState) : AppState :=
  let newData := tag_reports.map translateTag
  { st with tagData := newData,
            tagQueue := st.tagQueue ++ [newData.map RFIDTag.model_dump] }

/-- One successful send_json delivery: the receiving connection id and
the payload sent. -/
structure Delivery where
  connId : Nat
  payload : Json

/-- The fan-out loop inside process_queue: iterate over a copy of
ACTIVE_CONNECTIONS, send the payload to each; a connection whose send
raises is removed from the list and the loop continues. -/
def send_all (payload : Json) : List Conn → List Conn × List Delivery
  | [] => ([], [])
  | c :: rest =>
      if c.fails then send_all payload rest
      else
        let res := send_all payload rest
        (c :: res.1, ⟨c.id, payload⟩ :: res.2)

/-- One iteration of the process_queue polling loop (the body executed
between two 100ms sleeps): if TAG_QUEUE is non-empty, take one item
and send it, wrapped as an object with a single tags key, to every
active connection. -/
def process_queue_iter (st : AppState) : AppState × List Delivery :=
  match st.tagQueue with
  | [] => (st, [])
  | tags :: rest =>
      let payload := Json.obj [("tags", Json.arr tags)]
      let res := send_all payload st.activeConnections
      ({ st with tagQueue := rest, activeConnections := res.1 }, res.2)

/-- The receive loop of websocket_endpoint: each incoming text message
is awaited and discarded, touching no service state. -/
def receive_loop : List String → AppState → AppState
  | [], st => st
  | _msg :: rest, st => receive_loop rest st

/-- How the websocket receive loop terminates: a WebSocketDisconnect,
or any other exception. -/
inductive WsOutcome where
  | disconnect
  | otherError
deriving DecidableEq, Repr

/-- websocket_endpoint: accept, append the connection to
ACTIVE_CONNECTIONS, receive and discard incoming texts until the loop
raises, then remove the connection (on a generic error, only if still
present). -/
def websocket_endpoint (ws : Conn) (incoming : List String) (outcome : WsOutcome)
    (st : AppState) : AppState :=
  let st1 := { st with activeConnections := st.activeConnections ++ [ws] }
  let st2 := receive_loop incoming st1
  match outcome with
  | WsOutcome.disconnect =>
      { st2 with activeConnections := st2.activeConnections.erase ws }
  | WsOutcome.otherError =>
      if ws ∈ st2.activeConnections then
        { st2 with activeConnections := st2.activeConnections.erase ws }
      else st2

/-- GET /start: call start_reading, then unconditionally answer with
the Reading started message. -/
def start (st : AppState) : Option (AppState × List TracedCall × Json) :=
  let res := start_reading st
  some (res.1, res.2, Json.obj [("message", Json.str "Reading started")])

/-- GET /stop: call stop_reading, then unconditionally answer with the
Reading stopped message. -/
def stop (st : AppState) : Option (AppState × List TracedCall × Json) :=
  let res := stop_reading st
  some (res.1, res.2, Json.obj [("message", Json.str "Reading stopped")])

/-- GET /last-read: return the serialized TAG_DATA list. -/
def get_tags (st : AppState) : Option Json :=
  some (Json.obj [("tags", Json.arr (st.tagData.map RFIDTag.model_dump))])

/-- GET /status: return READER.is_alive(); none models the
AttributeError raised when READER is None. -/
def status (st : AppState) : Option Json :=
  match st.reader with
  | none => none
  | some r => some (Json.obj [("status", Json.bool r.alive)])

/-- GET /state: return the state name and state code from
READER.llrp.state; none models the AttributeError raised when READER
is None. getStateName is library code outside the service, passed as
an arbitrary function. -/
def is_reading (getStateName : Nat → String) (st : AppState) : Option Json :=
  match st.reader with
  | none => none
  | some r => some (Json.obj [("state", Json.str (getStateName r.llrpState)),
                              ("code", Json.num r.llrpState)])

/-- GET /clear: clear TAG_DATA and answer with the cleared message. -/
def clear (st : AppState) : Option (AppState × Json) :=
  some (clear_tag_data st, Json.obj [("message", Json.str "Tag data cleared")])

/-- The GPIEvent payload as the callback reads it: the result of
get on GPIPortNumber, and the truthiness of the inner GPIEvent flag. -/
structure GPIEventData where
  portNumber : Option Nat
  flag : Bool
deriving DecidableEq, Repr

/-- A reader event as the event callback inspects it. The outer option
models whether the GPIEvent key is present; the inner option models
whether its value is truthy. -/
structure Event where
  gpi : Option (Option GPIEventData)

/-- handle_event: when the event carries a truthy GPIEvent for port 1,
a true flag starts reading (guarded by the reader being alive) and a
false flag stops reading; everything else only logs. -/
def handle_event (ev : Event) (st : AppState) : AppState × List TracedCall :=
  match ev.gpi with
  | some (some g) =>
      if g.portNumber = some 1 then
        if g.flag then
          if readerAlive st then start_reading st else (st, [])
        else stop_reading st
      else (st, [])
  | _ => (st, [])

/-! Concrete sample inputs used by witnesses and counterexamples. -/

/-- A live reader in state code 3. -/
def sampleReader : Reader := ⟨true, 3⟩

/-- A subscriber whose sends succeed. -/
def conn1 : Conn := ⟨1, false⟩

/-- A subscriber whose sends raise. -/
def conn2 : Conn := ⟨2, true⟩

/-- A state with a live reader, one stored tag and one subscriber. -/
def sampleAlive : AppState :=
  ⟨some sampleReader, [⟨"A", 1, 5, 2⟩], [], [conn1]⟩

/-- A state whose queue holds two pending batches and which has one
good and one failing subscriber. -/
def sampleTwoQueue : AppState :=
  ⟨some sampleReader, [], [[Json.num 1], [Json.num 2]], [conn1, conn2]⟩

/-- A state where the reader was never initialized. -/
def sampleNoReader : AppState := ⟨none, [⟨"A", 1, 5, 2⟩], [], []⟩

/-- A state with a dead reader. -/
def sampleDead : AppState := ⟨some ⟨false, 0⟩, [⟨"A", 1, 5, 2⟩], [], []⟩

/-! Theorems. -/

/-- C1: whenever start_reading runs in a state where the reader
client exists and is alive, the only reader call it makes is
startInventory, and at the moment of that call TAG_DATA has already
been set to the empty list. -/
theorem start_reading_clears_before_inventory (st : AppState)
    (h : readerAlive st = true) :
    (start_reading st).2.map TracedCall.call = [ReaderCall.startInventory] ∧
    ∀ tc ∈ (start_reading st).2, tc.stateAtCall.tagData = [] := by
  refine ⟨by simp [start_reading, h], ?_⟩
  intro tc htc
  simp [start_reading, h] at htc
  simp [htc, clear_tag_data]

/-- Witness for C1 at a concrete live-reader state holding one tag. -/
theorem start_reading_clears_before_inventory_witness :
    readerAlive sampleAlive = true ∧
    ((start_reading sampleAlive).2.map TracedCall.call = [ReaderCall.startInventory] ∧
     ∀ tc ∈ (start_reading sampleAlive).2, tc.stateAtCall.tagData = []) :=
  ⟨by decide,
   start_reading_clears_before_inventory sampleAlive (by decide)⟩

/-- send_all keeps exactly the connections whose send does not raise
and produces one delivery per kept connection, in order. -/
theorem send_all_eq (payload : Json) (conns : List Conn) :
    send_all payload conns =
      (conns.filter (fun c => !c.fails),
       (conns.filter (fun c => !c.fails)).map (fun c => ⟨c.id, payload⟩)) := by
  induction conns with
  | nil => rfl
  | cons c rest ih =>
      by_cases hc : c.fails
      · simp [send_all, hc, List.filter_cons, ih]
      · simp [send_all, hc, List.filter_cons, ih]

/-- C2 counterexample refuting the claim as stated: at a state whose
queue holds two batches, one loop iteration does not drain the queue;
the second enqueued item is still present afterwards. -/
theorem process_queue_iter_not_drain :
    sampleTwoQueue.tagQueue.length = 2 ∧
    (process_queue_iter sampleTwoQueue).1.tagQueue =
      [[Json.num 2]] := by
  refine ⟨rfl, ?_⟩
  simp [process_queue_iter, sampleTwoQueue]

/-- C2 amended: on each iteration with a non-empty queue, exactly the
head item is removed from TAG_QUEUE, and that one item is forwarded to
all currently open subscriber connections (those whose send does not
raise receive it; the rest are removed) before the loop sleeps again. -/
theorem process_queue_iter_pops_head (st : AppState)
    (ts : List Json) (rest : List (List Json)) (h : st.tagQueue = ts :: rest) :
    (process_queue_iter st).1.tagQueue = rest ∧
    (process_queue_iter st).2 =
      (st.activeConnections.filter (fun c => !c.fails)).map
        (fun c => ⟨c.id, Json.obj [("tags", Json.arr ts)]⟩) := by
  simp [process_queue_iter, h, send_all_eq]

/-- Witness for C2 at the concrete two-batch state. -/
theorem process_queue_iter_pops_head_witness :
    sampleTwoQueue.tagQueue = [Json.num 1] :: [[Json.num 2]] ∧
    ((process_queue_iter sampleTwoQueue).1.tagQueue = [[Json.num 2]] ∧
     (process_queue_iter sampleTwoQueue).2 =
       (sampleTwoQueue.activeConnections.filter (fun c => !c.fails)).map
         (fun c => ⟨c.id, Json.obj [("tags", Json.arr [Json.num 1])]⟩)) :=
  ⟨rfl, process_queue_iter_pops_head sampleTwoQueue [Json.num 1] [[Json.num 2]] rfl⟩

/-- C3: after any sequence of tag-report callback invocations, from
any starting state, TAG_DATA is exactly the record translation of the
most recent batch: epc decoded from the EPC bytes, channel, last_seen
and seen_count copied from the report; nothing from earlier batches
survives. -/
theorem tag_report_cb_last_batch (st : AppState)
    (batches : List (List TagReport)) (lastBatch : List TagReport) :
    ((batches ++ [lastBatch]).foldl (fun s b => tag_report_cb b s) st).tagData =
      lastBatch.map (fun tag =>
        { epc := decodeAscii tag.EPC, channel := tag.ChannelIndex,
          last_seen := tag.LastSeenTimestampUTC,
          seen_count := tag.TagSeenCount }) := by
  rw [List.foldl_append]
  simp [tag_report_cb, translateTag]

/-- C4: during a polling-loop iteration that is delivering a queued
item, a connection whose send raises is removed from
ACTIVE_CONNECTIONS, while every other open connection still receives
its delivery. -/
theorem send_failure_removes_connection (st : AppState)
    (ts : List Json) (rest : List (List Json)) (h : st.tagQueue = ts :: rest)
    (c : Conn) (hc : c ∈ st.activeConnections) :
    (c.fails = true → c ∉ (process_queue_iter st).1.activeConnections) ∧
    (c.fails = false →
      c ∈ (process_queue_iter st).1.activeConnections ∧
      (⟨c.id, Json.obj [("tags", Json.arr ts)]⟩ : Delivery) ∈
        (process_queue_iter st).2) := by
  constructor
  · intro hf hmem
    simp [process_queue_iter, h, send_all_eq, List.mem_filter] at hmem
    simp [hf] at hmem
  · intro hf
    constructor
    · simp [process_queue_iter, h, send_all_eq, List.mem_filter]
      exact ⟨hc, hf⟩
    · simp only [process_queue_iter, h, send_all_eq]
      exact List.mem_map_of_mem _ (List.mem_filter.mpr ⟨hc, by simp [hf]⟩)

/-- Witness for C4 at the concrete state with one good and one failing
subscriber. -/
theorem send_failure_removes_connection_witness :
    sampleTwoQueue.tagQueue = [Json.num 1] :: [[Json.num 2]] ∧
    conn2 ∈ sampleTwoQueue.activeConnections ∧
    (conn2.fails = true →
      conn2 ∉ (process_queue_iter sampleTwoQueue).1.activeConnections) :=
  ⟨rfl, by decide,
   (send_failure_removes_connection sampleTwoQueue [Json.num 1] [[Json.num 2]]
      rfl conn2 (by decide)).1⟩

/-- C5: for any fresh connection accepted on the websocket endpoint,
whether the receive loop ends in WebSocketDisconnect or any other
exception, the handler removes the connection, so it is absent from
ACTIVE_CONNECTIONS when the handler exits. -/
theorem websocket_endpoint_removes_connection (st : AppState) (ws : Conn)
    (incoming : List String) (outcome : WsOutcome)
    (h : ws ∉ st.activeConnections) :
    ws ∉ (websocket_endpoint ws incoming outcome st).activeConnections := by
  have hloop : ∀ (msgs : List String) (s : AppState), receive_loop msgs s = s := by
    intro msgs
    induction msgs with
    | nil => intro s; rfl
    | cons m rest ih => intro s; simpa [receive_loop] using ih s
  have herase :
      ((st.activeConnections ++ [ws]).erase ws) = st.activeConnections := by
    rw [List.erase_append_right _ (by simpa using h)]
    simp
  cases outcome with
  | disconnect =>
      have hconn :
          (websocket_endpoint ws incoming WsOutcome.disconnect st).activeConnections
            = st.activeConnections := by
        simp only [websocket_endpoint, hloop]
        exact herase
      rw [hconn]; exact h
  | otherError =>
      by_cases hmem : ws ∈ st.activeConnections ++ [ws]
      · have hconn :
            (websocket_endpoint ws incoming WsOutcome.otherError st).activeConnections
              = st.activeConnections := by
          simp only [websocket_endpoint, hloop, hmem, if_pos]
          exact herase
        rw [hconn]; exact h
      · exact absurd (by simp) hmem

/-- Witness for C5: a concrete fresh connection accepted into the
empty-connection state ends outside the set after disconnect. -/
theorem websocket_endpoint_removes_connection_witness :
    conn1 ∉ sampleNoReader.activeConnections ∧
    conn1 ∉ (websocket_endpoint conn1 ["ping"] WsOutcome.disconnect
              sampleNoReader).activeConnections :=
  ⟨by decide,
   websocket_endpoint_removes_connection sampleNoReader conn1 ["ping"]
     WsOutcome.disconnect (by decide)⟩

/-- C6: the /state handler, for any name-assignment function the
library provides and any initialized reader, answers with the code
field equal to READER.llrp.state and the state field equal to the
name that function assigns to that code. -/
theorem state_endpoint_reflects_reader (getStateName : Nat → String)
    (st : AppState) (r : Reader) (h : st.reader = some r) :
    is_reading getStateName st =
      some (Json.obj [("state", Json.str (getStateName r.llrpState)),
                      ("code", Json.num r.llrpState)]) := by
  simp [is_reading, h]

/-- Witness for C6 at a concrete reader in state code 3 with a
concrete name function. -/
theorem state_endpoint_reflects_reader_witness :
    sampleAlive.reader = some sampleReader ∧
    is_reading (fun n => String.append "S" (toString n)) sampleAlive =
      some (Json.obj
        [("state", Json.str (String.append "S" (toString sampleReader.llrpState))),
         ("code", Json.num sampleReader.llrpState)]) :=
  ⟨rfl,
   state_endpoint_reflects_reader (fun n => String.append "S" (toString n))
     sampleAlive sampleReader rfl⟩

/-- C7: every message the service sends on a websocket is an object
with the single tags key holding one queue item, and the endpoint
receive loop discards every incoming text without changing any
service state. -/
theorem websocket_messages_shape (st : AppState) :
    (∀ d ∈ (process_queue_iter st).2,
      ∃ ts, d.payload = Json.obj [("tags", Json.arr ts)]) ∧
    (∀ (msgs : List String) (s : AppState), receive_loop msgs s = s) := by
  constructor
  · intro d hd
    match hq : st.tagQueue with
    | [] => simp [process_queue_iter, hq] at hd
    | ts :: rest =>
        refine ⟨ts, ?_⟩
        simp [process_queue_iter, hq, send_all_eq] at hd
        obtain ⟨c, _, hcd⟩ := hd
        simp [← hcd]
  · intro msgs
    induction msgs with
    | nil => intro s; rfl
    | cons m rest ih => intro s; simpa [receive_loop] using ih s

/-- Witness for C7: the delivery made from the concrete two-batch
state has the tags shape, and a concrete receive leaves the state
unchanged. -/
theorem websocket_messages_shape_witness :
    (∃ ts, (Delivery.mk 1 (Json.obj [("tags", Json.arr [Json.num 1])])).payload =
      Json.obj [("tags", Json.arr ts)]) ∧
    receive_loop ["hello"] sampleAlive = sampleAlive :=
  ⟨(websocket_messages_shape sampleTwoQueue).1
      ⟨1, Json.obj [("tags", Json.arr [Json.num 1])]⟩
      (by simp [process_queue_iter, sampleTwoQueue, send_all, conn1, conn2]),
   (websocket_messages_shape sampleTwoQueue).2 ["hello"] sampleAlive⟩

/-- C8: when the reader is absent or not alive, start_reading and
stop_reading change nothing and issue no reader call, yet /start and
/stop still answer with their fixed success messages. -/
theorem start_stop_noop_when_reader_down (st : AppState)
    (h : st.reader = none ∨ ∃ r, st.reader = some r ∧ r.alive = false) :
    start st = some (st, [], Json.obj [("message", Json.str "Reading started")]) ∧
    stop st = some (st, [], Json.obj [("message", Json.str "Reading stopped")]) := by
  have hdown : readerAlive st = false := by
    rcases h with h | ⟨r, hr, hal⟩
    · simp [readerAlive, h]
    · simp [readerAlive, hr, hal]
  constructor
  · simp [start, start_reading, hdown]
  · simp [stop, stop_reading, hdown]

/-- Witness for C8 at the concrete never-initialized state. -/
theorem start_stop_noop_when_reader_down_witness :
    sampleNoReader.reader = none ∧
    (start sampleNoReader =
      some (sampleNoReader, [],
            Json.obj [("message", Json.str "Reading started")]) ∧
     stop sampleNoReader =
      some (sampleNoReader, [],
            Json.obj [("message", Json.str "Reading stopped")])) :=
  ⟨rfl, start_stop_noop_when_reader_down sampleNoReader (Or.inl rfl)⟩

/-- C9: with READER still None, /status and /state raise (no response
is produced) while /start, /stop, /last-read and /clear all answer. -/
theorem status_state_unguarded_none (st : AppState) (getStateName : Nat → String)
    (h : st.reader = none) :
    status st = none ∧ is_reading getStateName st = none ∧
    (start st).isSome ∧ (stop st).isSome ∧
    (get_tags st).isSome ∧ (clear st).isSome := by
  refine ⟨by simp [status, h], by simp [is_reading, h], ?_, ?_, ?_, ?_⟩ <;>
    simp [start, stop, get_tags, clear]

/-- Witness for C9 at the concrete never-initialized state. -/
theorem status_state_unguarded_none_witness :
    sampleNoReader.reader = none ∧
    (status sampleNoReader = none ∧
     is_reading (fun _ => "S") sampleNoReader = none ∧
     (start sampleNoReader).isSome ∧ (stop sampleNoReader).isSome ∧
     (get_tags sampleNoReader).isSome ∧ (clear sampleNoReader).isSome) :=
  ⟨rfl, status_state_unguarded_none sampleNoReader (fun _ => "S") rfl⟩

/-- C10: an event with a truthy GPIEvent for port 1 triggers
start_reading when its flag is true and stop_reading when false; any
GPIEvent for another port, and any event without a truthy GPIEvent,
leaves the state untouched and issues no reader call. -/
theorem handle_event_gpi_dispatch (ev : Event) (st : AppState) :
    (∀ g, ev.gpi = some (some g) → g.portNumber = some 1 →
      (g.flag = true → handle_event ev st = start_reading st) ∧
      (g.flag = false → handle_event ev st = stop_reading st)) ∧
    ((∀ g, ev.gpi = some (some g) → g.portNumber ≠ some 1) →
      handle_event ev st = (st, [])) := by
  constructor
  · intro g hg hport
    constructor
    · intro hflag
      by_cases hal : readerAlive st = true
      · simp [handle_event, hg, hport, hflag, hal]
      · simp only [Bool.not_eq_true] at hal
        simp [handle_event, hg, hport, hflag, hal, start_reading]
    · intro hflag
      simp [handle_event, hg, hport, hflag]
  · intro hother
    match hgp : ev.gpi with
    | none => simp [handle_event, hgp]
    | some none => simp [handle_event, hgp]
    | some (some g) =>
        have := hother g hgp
        simp [handle_event, hgp, this]

/-- Witness for C10: a concrete port-1 true-flag GPI event on the live
reader triggers start_reading. -/
theorem handle_event_gpi_dispatch_witness :
    handle_event ⟨some (some ⟨some 1, true⟩)⟩ sampleAlive =
      start_reading sampleAlive :=
  ((handle_event_gpi_dispatch ⟨some (some ⟨some 1, true⟩)⟩ sampleAlive).1
      ⟨some 1, true⟩ rfl rfl).1 rfl

end FastapiApp
